import Mathlib

/-!
Verification of the buyer-side negotiation policy implemented by
`YourBuyerAgent` in `AIAgent.py`.

The Python code is shallowly embedded: machine floats are idealised as
exact rationals (all float constants such as 0.87, 1.15, 0.96 are exact
decimal literals in `ℚ`), Python `int(...)` truncation toward zero is
`pyInt` over `ℚ` (and `pyIntR` over `ℝ` for the single expression that
involves `math.exp`), Python lists are Lean lists, and the two draws of
the `random` module used by `_say` are passed in explicitly as an
`RngDraw` argument so that the policy is a pure function of its inputs
and of the draw.
-/

namespace NegotiationAgent

/-- Python `int(...)` applied to an exact rational: truncation toward zero. -/
def pyInt (q : ℚ) : ℤ := if 0 ≤ q then ⌊q⌋ else ⌈q⌉

/-- Python `int(...)` applied to a real number: truncation toward zero.
Used only for the logistic-eased concession expression, which involves
`math.exp`. -/
noncomputable def pyIntR (x : ℝ) : ℤ := if 0 ≤ x then ⌊x⌋ else ⌈x⌉

/-- `DealStatus` enum from `AIAgent.py`. -/
inductive DealStatus where
  | ONGOING
  | ACCEPTED
  | REJECTED
  | TIMEOUT
deriving DecidableEq

/-- `Product` dataclass. The free-form `attributes` mapping is reduced to
the only key the agent ever reads, `attributes.get("export_grade")`,
coerced through Python truthiness to a `Bool` (absent key reads as
`False`). -/
structure Product where
  name : String
  category : String
  quantity : ℤ
  quality_grade : String
  origin : String
  base_market_price : ℤ
  export_grade : Bool

/-- `NegotiationContext` dataclass. Messages are (role, text) pairs; the
policy never reads them. -/
structure NegotiationContext where
  product : Product
  your_budget : ℤ
  current_round : ℤ
  seller_offers : List ℤ
  your_offers : List ℤ
  messages : List (String × String)

/-- The random draws consumed by one `_say` call: the value of
`random.random()` (a number in `[0,1)`) and the index picked by
`random.choice` among the three catchphrases. -/
structure RngDraw where
  r : ℚ
  choice : Fin 3

/-- The `catchphrases` list from `define_personality`. -/
def catchphrases : List String :=
  ["Let\x27s keep this fair and crisp.",
   "Numbers talk—I follow the data.",
   "Meet me where value aligns."]

/-- `YourBuyerAgent._say`: with probability 1/2 append a random catchphrase. -/
def say (body : String) (rng : RngDraw) : String :=
  if rng.r < 0.5 then body ++ " " ++ catchphrases.getD rng.choice.val body
  else body

/-- Digit grouping used to embed Python `f"{x:,}"` formatting: insert a
comma every three characters, taking the digit list least-significant
first. -/
def insertCommas : List Char → List Char
  | a :: b :: c :: d :: rest => a :: b :: c :: ',' :: insertCommas (d :: rest)
  | l => l

/-- Python `f"{x:,}"` on an integer. -/
def commaFmt (x : ℤ) : String :=
  let digits := (toString x.natAbs).toList
  let grouped := (insertCommas digits.reverse).reverse
  (if x < 0 then "-" else "") ++ String.mk grouped

/-- Python `str.lower()` on the (ASCII) grade strings, embedded as a
character-wise map so that it evaluates on concrete inputs. -/
def pyLower (s : String) : String := String.mk (s.data.map Char.toLower)

/-- `YourBuyerAgent._grade_multiplier`. -/
def grade_multiplier (product : Product) : ℚ :=
  let grade := pyLower product.quality_grade
  let exportFlag := product.export_grade
  if grade = "export" ∨ exportFlag = true then 0.95
  else if grade = "a" then 0.92
  else 0.88

/-- `YourBuyerAgent.calculate_fair_price`. -/
def calculate_fair_price (product : Product) : ℤ :=
  pyInt ((product.base_market_price : ℚ) * grade_multiplier product)

/-- `YourBuyerAgent._budget_tightness`. -/
def budget_tightness (ctx : NegotiationContext) : ℚ :=
  (ctx.your_budget : ℚ) / ((max 1 ctx.product.base_market_price : ℤ) : ℚ)

/-- The pairs `(your_offers[i], seller_offers[i+1])` visited by the loop in
`_estimate_min_price`; the loop breaks at the first `i` with
`i + 1 >= len(seller_offers)`. -/
def offerPairs : List ℤ → List ℤ → List (ℤ × ℤ)
  | our :: ours, _ :: c :: cs => (our, c) :: offerPairs ours (c :: cs)
  | _, _ => []

/-- Body of the loop in `_estimate_min_price`, threading the
`lower_bound` and `upper_bound` accumulators (`none` for the initial
`math.inf` upper bound). -/
def estimateLoop : List (ℤ × ℤ) → Option ℤ → Option ℤ → Option ℤ × Option ℤ
  | [], lb, ub => (lb, ub)
  | (our_offer, counter) :: rest, lb, ub =>
      let threshold := pyInt ((our_offer : ℚ) * 1.15)
      let ub' : Option ℤ := some (match ub with | none => counter | some u => min u counter)
      if threshold < counter then
        estimateLoop rest (some counter) ub'
      else
        estimateLoop rest lb ub'

/-- `YourBuyerAgent._estimate_min_price`: the point estimate together with
the `lower_bound`/`upper_bound` dictionary it returns. -/
def estimate_min_price (ctx : NegotiationContext) :
    Option ℤ × (Option ℤ × Option ℤ) :=
  let st := estimateLoop (offerPairs ctx.your_offers ctx.seller_offers) none none
  let lb := st.1
  let ub := st.2
  let est : Option ℤ :=
    match lb with
    | some v => some v
    | none => ub.map (fun u => pyInt ((u : ℚ) * 0.96))
  (est, lb, ub)

/-- The `last = context.your_offers[-1] if context.your_offers else 0`
local of `respond_to_seller_offer`. -/
def lastOffer (ctx : NegotiationContext) : ℤ :=
  match ctx.your_offers.getLast? with
  | some v => v
  | none => 0

/-- The `late_cap` local of `respond_to_seller_offer`:
`min(budget, int(0.96 * market))`. -/
def late_cap (ctx : NegotiationContext) : ℤ :=
  min ctx.your_budget (pyInt (0.96 * (ctx.product.base_market_price : ℚ)))

/-- The `ceil_now` local of `respond_to_seller_offer`:
`int(fair + (late_cap - fair) * min(1.0, (round_i - 1) / 8.0))`. -/
def ceil_now (ctx : NegotiationContext) : ℤ :=
  let fair := calculate_fair_price ctx.product
  pyInt ((fair : ℚ) + ((late_cap ctx : ℤ) - fair : ℚ) *
    min 1 (((ctx.current_round : ℚ) - 1) / 8))

/-- `YourBuyerAgent._concession_target`. -/
noncomputable def concession_target (ctx : NegotiationContext) (target : ℤ) : ℤ :=
  let r : ℤ := max 1 ctx.current_round
  let R : ℤ := 10
  let t : ℝ := ((r : ℝ) - 1) / ((R : ℝ) - 1)
  let eased : ℝ := 1 / (1 + Real.exp (-8 * (t - 0.5)))
  let anchor : ℤ :=
    match ctx.your_offers with
    | a :: _ => a
    | [] => pyInt ((ctx.product.base_market_price : ℚ) * 0.65)
  pyIntR ((anchor : ℝ) + ((target : ℝ) - (anchor : ℝ)) * eased)

/-- `YourBuyerAgent.generate_opening_offer`. -/
def generate_opening_offer (ctx : NegotiationContext) (rng : RngDraw) :
    ℤ × String :=
  let market := ctx.product.base_market_price
  let bmr := budget_tightness ctx
  let anchor_ratio : ℚ := if 1.05 ≤ bmr then 0.62 else (if 0.95 ≤ bmr then 0.58 else 0.55)
  let anchor_ratio :=
    if pyLower ctx.product.quality_grade = "export" ∨ ctx.product.export_grade = true then
      anchor_ratio + 0.03
    else anchor_ratio
  let opening := pyInt ((market : ℚ) * anchor_ratio)
  let opening := min opening ctx.your_budget
  let opening := max 1 opening
  let msg :=
    "For " ++ commaFmt ctx.product.quantity ++ " " ++ ctx.product.name ++
    " (" ++ ctx.product.quality_grade ++ ", " ++ ctx.product.origin ++
    "), market is near ₹" ++ commaFmt market ++
    ". My opening is ₹" ++ commaFmt opening ++
    " considering grade and volume. Happy to move if the numbers make sense."
  (opening, say msg rng)

/-- The counter-offer computation of `respond_to_seller_offer` — the code
path taken when neither accept check fires: target derivation from the
estimate, S-curve plan, monotonic safeguards, budget clamp, late-round
pushes, closing jump and final nudge. Extracted from the body of
`respond_to_seller_offer` so the pipeline can be reasoned about on its
own; `respond_to_seller_offer` below returns exactly this value on the
ONGOING path. -/
noncomputable def counter_offer (ctx : NegotiationContext) : ℤ :=
  let market := ctx.product.base_market_price
  let budget := ctx.your_budget
  let round_i := ctx.current_round
  let est_min := (estimate_min_price ctx).1
  let accept_trigger : Option ℤ := est_min.map (fun e : ℤ => ⌈(1.10 : ℚ) * (e : ℚ)⌉)
  let target : ℤ :=
    match accept_trigger with
    | some a => min a (min (ceil_now ctx) budget)
    | none => min (pyInt (0.90 * (market : ℚ))) (min (ceil_now ctx) budget)
  let planned := concession_target ctx target
  let last := lastOffer ctx
  let counter := max planned (max (pyInt ((last : ℚ) * 1.08)) (last + 1000))
  let counter := min counter budget
  let counter :=
    if 9 ≤ round_i then min (max counter (pyInt (0.90 * (market : ℚ)))) budget
    else counter
  let counter :=
    if 10 ≤ round_i then min (max counter (pyInt (0.92 * (market : ℚ)))) budget
    else counter
  let counter :=
    match accept_trigger with
    | some atr =>
        if 8 ≤ round_i then
          let jump := min atr (min budget (ceil_now ctx))
          if last < jump then max counter jump else counter
        else counter
    | none => counter
  let counter :=
    match est_min with
    | some e =>
        let needed : ℤ := ⌈(1.10 : ℚ) * (e : ℚ)⌉
        if needed ≤ budget ∧ 0 < needed - counter ∧
            needed - counter ≤ max 2000 (pyInt (0.005 * (market : ℚ))) then
          needed
        else counter
    | none => counter
  counter

/-- `YourBuyerAgent.respond_to_seller_offer`. The unused `seller_message`
parameter is kept for signature fidelity; the `RngDraw` stands for the
`random` calls made by the single `_say` invocation of the taken branch. -/
noncomputable def respond_to_seller_offer (ctx : NegotiationContext)
    (seller_price : ℤ) (seller_message : String) (rng : RngDraw) :
    DealStatus × ℤ × String :=
  let market := ctx.product.base_market_price
  let budget := ctx.your_budget
  let round_i := ctx.current_round
  if seller_price ≤ budget ∧ seller_price ≤ pyInt (0.87 * (market : ℚ)) then
    (DealStatus.ACCEPTED, seller_price,
      say ("That\x27s compelling at ₹" ++ commaFmt seller_price ++ ". We have a deal.") rng)
  else if seller_price ≤ budget ∧ seller_price ≤ ceil_now ctx ∧
      seller_price ≤ pyInt (0.93 * (market : ℚ)) then
    (DealStatus.ACCEPTED, seller_price,
      say ("Alright, ₹" ++ commaFmt seller_price ++ " is fair given the grade. Let\x27s lock it.") rng)
  else
    let counter := counter_offer ctx
    let msg :=
      "I can move to ₹" ++ commaFmt counter ++ ". " ++
      (if (estimate_min_price ctx).1.isSome then
        "I\x27m reading your floor and aiming to clear it cleanly; "
       else "I\x27m calibrating to market and grade signals; ") ++
      (if 8 ≤ round_i then "pushing to close before we time out."
       else "let\x27s land this fairly.")
    (DealStatus.ONGOING, counter, say msg rng)

/-- The reveal condition of the estimator loop, `counter > int(our_offer * 1.15)`,
as a Boolean predicate on one (buyer offer, seller counter) pair. -/
def floorReveal (p : ℤ × ℤ) : Bool := pyInt ((p.1 : ℚ) * 1.15) < p.2

/-- Concrete context builder for the test instances discussed in the spec. -/
def mkCtx (market budget round : ℤ) (sellers yours : List ℤ)
    (grade : String) (flag : Bool) : NegotiationContext :=
  { product :=
      { name := "Alphonso Mangoes", category := "Mangoes", quantity := 100,
        quality_grade := grade, origin := "Ratnagiri",
        base_market_price := market, export_grade := flag },
    your_budget := budget, current_round := round,
    seller_offers := sellers, your_offers := yours, messages := [] }

section PyIntLemmas

/-- For a nonnegative rational, Python truncation agrees with the floor. -/
lemma pyInt_eq_floor {q : ℚ} (h : 0 ≤ q) : pyInt q = ⌊q⌋ := by
  simp [pyInt, h]

/-- An integer below a rational is below its Python truncation. -/
lemma le_pyInt_of_le {n : ℤ} {q : ℚ} (h : (n : ℚ) ≤ q) : n ≤ pyInt q := by
  unfold pyInt
  split
  · exact Int.le_floor.mpr h
  · exact le_trans (Int.le_floor.mpr h) (Int.floor_le_ceil q)

/-- The Python truncation of a nonnegative rational is below the rational. -/
lemma pyInt_le_self {q : ℚ} (h : 0 ≤ q) : (pyInt q : ℚ) ≤ q := by
  rw [pyInt_eq_floor h]; exact Int.floor_le q

/-- Python truncation of an integer-valued rational is that integer. -/
lemma pyInt_intCast (n : ℤ) : pyInt (n : ℚ) = n := by
  unfold pyInt
  split <;> simp

end PyIntLemmas

section EstimatorLemmas

/-- The `lower_bound` accumulator of the estimator loop ends up holding the
counter of the last reveal-triggering pair, or the initial value if no pair
triggers. -/
lemma estimateLoop_fst (ps : List (ℤ × ℤ)) : ∀ (lb0 ub0 : Option ℤ),
    (estimateLoop ps lb0 ub0).1 =
      ((ps.filter floorReveal).getLast?.elim lb0 (fun p => some p.2)) := by
  induction ps with
  | nil => intro lb0 ub0; rfl
  | cons p rest ih =>
    intro lb0 ub0
    obtain ⟨o, c⟩ := p
    by_cases h : pyInt ((o : ℚ) * 1.15) < c
    · rw [show estimateLoop ((o, c) :: rest) lb0 ub0 =
          estimateLoop rest (some c)
            (some (ub0.elim c (fun u => min u c))) by
            simp only [estimateLoop, if_pos h]; cases ub0 <;> rfl]
      rw [ih]
      rw [List.filter_cons_of_pos (by simpa [floorReveal] using h)]
      rw [List.getLast?_cons]
      cases hl : (rest.filter floorReveal).getLast? <;> simp [hl, Option.elim]
    · rw [show estimateLoop ((o, c) :: rest) lb0 ub0 =
          estimateLoop rest lb0
            (some (ub0.elim c (fun u => min u c))) by
            simp only [estimateLoop, if_neg h]; cases ub0 <;> rfl]
      rw [ih]
      rw [List.filter_cons_of_neg (by simpa [floorReveal] using h)]

/-- The `upper_bound` accumulator, once set, ends as the running minimum of
all counters. -/
lemma estimateLoop_snd_some (ps : List (ℤ × ℤ)) : ∀ (lb0 : Option ℤ) (u : ℤ),
    (estimateLoop ps lb0 (some u)).2 = some ((ps.map Prod.snd).foldl min u) := by
  induction ps with
  | nil => intro _ _; rfl
  | cons p rest ih =>
    intro lb0 u
    obtain ⟨o, c⟩ := p
    by_cases h : pyInt ((o : ℚ) * 1.15) < c
    · simp only [estimateLoop, if_pos h]
      rw [ih]; rfl
    · simp only [estimateLoop, if_neg h]
      rw [ih]; rfl

/-- Started from the `math.inf` upper bound, the loop ends with the minimum
of all visited counters. -/
lemma estimateLoop_snd_none (ps : List (ℤ × ℤ)) (lb0 : Option ℤ) :
    (estimateLoop ps lb0 none).2 = (ps.map Prod.snd).min? := by
  cases ps with
  | nil => rfl
  | cons p rest =>
    obtain ⟨o, c⟩ := p
    by_cases h : pyInt ((o : ℚ) * 1.15) < c
    · simp only [estimateLoop, if_pos h]
      rw [estimateLoop_snd_some]; rfl
    · simp only [estimateLoop, if_neg h]
      rw [estimateLoop_snd_some]; rfl

end EstimatorLemmas

section CounterLemmas

/-- The counter-offer pipeline never exceeds the budget: every branch ends
in a `min` with the budget, a value bounded by one, or a guard requiring it. -/
lemma counter_offer_le_budget (ctx : NegotiationContext) :
    counter_offer ctx ≤ ctx.your_budget := by
  cases hE : (estimate_min_price ctx).1 with
  | none =>
    simp only [counter_offer, hE, Option.map_none']
    split_ifs <;> omega
  | some e =>
    simp only [counter_offer, hE, Option.map_some']
    split_ifs <;> omega

/-- When the last buyer offer is within budget, the counter-offer pipeline
never regresses, and it advances by at least the fixed step 1000 except
where the budget clamp binds. -/
lemma counter_offer_lower (ctx : NegotiationContext)
    (h : lastOffer ctx ≤ ctx.your_budget) :
    lastOffer ctx ≤ counter_offer ctx ∧
    min (lastOffer ctx + 1000) ctx.your_budget ≤ counter_offer ctx := by
  cases hE : (estimate_min_price ctx).1 with
  | none =>
    simp only [counter_offer, hE, Option.map_none']
    split_ifs <;> constructor <;> omega
  | some e =>
    simp only [counter_offer, hE, Option.map_some']
    split_ifs <;> constructor <;> omega

end CounterLemmas

/-- C4: if at least one (buyer offer, seller counter) pair of the committed
history clears the `int(offer * 1.15)` threshold strictly, the point
estimate of the estimator is the counter of the most recent (last-seen)
such pair;
a tie (`counter == threshold`) does not trigger a floor reveal, as the
concrete tie instance with threshold `int(60000 * 1.15) = 69000` and
counter `69000` shows: the estimate falls back to
`int(69000 * 0.96) = 66240`, not to `69000`. -/
theorem estimator_lower_bound_capture :
    (∀ ctx : NegotiationContext,
      (∃ p ∈ offerPairs ctx.your_offers ctx.seller_offers, floorReveal p = true) →
      (estimate_min_price ctx).1 =
        ((offerPairs ctx.your_offers ctx.seller_offers).filter floorReveal).getLast?.map
          Prod.snd) ∧
    floorReveal (60000, 69000) = false ∧
    (estimate_min_price (mkCtx 100000 120000 3 [90000, 69000] [60000] "B" false)).1 =
      some 66240 := by
  refine ⟨?_, by norm_num [floorReveal, pyInt], by
    norm_num [estimate_min_price, mkCtx, offerPairs, estimateLoop, pyInt]⟩
  intro ctx ⟨p, hp, hrev⟩
  have hne : (offerPairs ctx.your_offers ctx.seller_offers).filter floorReveal ≠ [] := by
    intro hnil
    exact absurd hrev (by simpa using (List.filter_eq_nil_iff.mp hnil p hp))
  simp only [estimate_min_price]
  rw [estimateLoop_fst]
  cases hl : ((offerPairs ctx.your_offers ctx.seller_offers).filter floorReveal).getLast? with
  | none => exact absurd (List.getLast?_eq_none_iff.mp hl) hne
  | some q => rfl

/-- Witness for C4 at the spec instance: buyer offers `[50000, 60000]` and
seller counters `[90000, 72000]` give the estimate `72000`. -/
theorem estimator_lower_bound_capture_witness :
    (estimate_min_price (mkCtx 100000 120000 3 [90000, 72000] [50000, 60000] "B" false)).1 =
      some 72000 := by
  have h := estimator_lower_bound_capture.1
      (mkCtx 100000 120000 3 [90000, 72000] [50000, 60000] "B" false)
      ⟨(50000, 72000), by simp [mkCtx, offerPairs], by norm_num [floorReveal, pyInt]⟩
  rw [h]
  norm_num [mkCtx, offerPairs, floorReveal, pyInt, List.filter]

/-- C5: when the history holds at least one completed pair but none clears
the reveal threshold, the estimate is `int(u * 0.96)` for `u` the minimum
observed seller counter, and when no completed pair exists the estimate is
`None`. -/
theorem estimator_fallback_and_empty :
    (∀ ctx : NegotiationContext,
      offerPairs ctx.your_offers ctx.seller_offers ≠ [] →
      (∀ p ∈ offerPairs ctx.your_offers ctx.seller_offers, floorReveal p = false) →
      (estimate_min_price ctx).1 =
        ((offerPairs ctx.your_offers ctx.seller_offers).map Prod.snd).min?.map
          (fun u => pyInt ((u : ℚ) * 0.96))) ∧
    (∀ ctx : NegotiationContext,
      offerPairs ctx.your_offers ctx.seller_offers = [] →
      (estimate_min_price ctx).1 = none) := by
  constructor
  · intro ctx _ hno
    have hfilter : (offerPairs ctx.your_offers ctx.seller_offers).filter floorReveal = [] :=
      List.filter_eq_nil_iff.mpr (fun p hp => by simp [hno p hp])
    simp only [estimate_min_price]
    rw [estimateLoop_fst, hfilter, estimateLoop_snd_none]
    rfl
  · intro ctx h
    simp [estimate_min_price, h, estimateLoop]

/-- Witness for C5 at the spec instance: buyer offer `[50000]` with the
seller counter `57000` (below the threshold `int(50000 * 1.15)`) yields
the estimate `int(57000 * 0.96) = 54720`. -/
theorem estimator_fallback_and_empty_witness :
    (estimate_min_price (mkCtx 100000 120000 3 [90000, 57000] [50000] "B" false)).1 =
      some 54720 := by
  have h := estimator_fallback_and_empty.1
      (mkCtx 100000 120000 3 [90000, 57000] [50000] "B" false)
      (by simp [mkCtx, offerPairs])
      (by
        intro p hp
        simp only [mkCtx, offerPairs, List.mem_singleton] at hp
        subst hp
        norm_num [floorReveal, pyInt])
  rw [h]
  norm_num [mkCtx, offerPairs, List.min?, pyInt]

/-- C10: for every context and seller price, `respond_to_seller_offer`
returns status ACCEPTED or ONGOING — never TIMEOUT and never REJECTED. -/
theorem status_range (ctx : NegotiationContext) (sp : ℤ) (m : String) (rng : RngDraw) :
    (respond_to_seller_offer ctx sp m rng).1 = DealStatus.ACCEPTED ∨
    (respond_to_seller_offer ctx sp m rng).1 = DealStatus.ONGOING := by
  simp only [respond_to_seller_offer]
  split_ifs <;> simp

/-- C9: the random draws influence only the message text — for any two
draws, `respond_to_seller_offer` returns the same status and the same
price, and `generate_opening_offer` the same price; and the estimator is
a pure function of the two offer histories, so two calls on identical,
unmutated histories return identical results. -/
theorem randomness_noninterference :
    (∀ (ctx : NegotiationContext) (sp : ℤ) (m : String) (rng rng' : RngDraw),
      (respond_to_seller_offer ctx sp m rng).1 = (respond_to_seller_offer ctx sp m rng').1 ∧
      (respond_to_seller_offer ctx sp m rng).2.1 =
        (respond_to_seller_offer ctx sp m rng').2.1) ∧
    (∀ (ctx : NegotiationContext) (rng rng' : RngDraw),
      (generate_opening_offer ctx rng).1 = (generate_opening_offer ctx rng').1) ∧
    (∀ ctx ctx' : NegotiationContext,
      ctx.your_offers = ctx'.your_offers → ctx.seller_offers = ctx'.seller_offers →
      estimate_min_price ctx = estimate_min_price ctx') := by
  refine ⟨?_, ?_, ?_⟩
  · intro ctx sp m rng rng'
    simp only [respond_to_seller_offer]
    split_ifs <;> exact ⟨rfl, rfl⟩
  · intro ctx rng rng'
    simp only [generate_opening_offer]
  · intro ctx ctx' h1 h2
    simp only [estimate_min_price, h1, h2]

/-- Witness for C9: two runs with different draws agree on status and
price, and the estimator returns the same result on two contexts that
agree on the offer histories but on nothing else. -/
theorem randomness_noninterference_witness :
    (respond_to_seller_offer (mkCtx 100000 120000 3 [90000, 72000] [50000, 60000] "B" false)
        86000 "" ⟨0, 0⟩).1 =
      (respond_to_seller_offer (mkCtx 100000 120000 3 [90000, 72000] [50000, 60000] "B" false)
        86000 "" ⟨0.9, 2⟩).1 ∧
    estimate_min_price (mkCtx 100000 120000 3 [90000, 72000] [50000, 60000] "B" false) =
      estimate_min_price (mkCtx 55000 1 9 [90000, 72000] [50000, 60000] "A" true) :=
  ⟨(randomness_noninterference.1 _ 86000 "" _ _).1,
   randomness_noninterference.2.2 _ _ rfl rfl⟩

/-- C1: with a budget of at least 1, every price the policy emits stays
within budget — the opening offer is at most the budget, every price
returned by `respond_to_seller_offer` (a counter-offer or an accepted
price) is at most the budget, and ACCEPTED is only returned at a seller
price within budget. -/
theorem budget_safety (ctx : NegotiationContext) (sp : ℤ) (m : String) (rng : RngDraw)
    (hb : 1 ≤ ctx.your_budget) :
    (generate_opening_offer ctx rng).1 ≤ ctx.your_budget ∧
    (respond_to_seller_offer ctx sp m rng).2.1 ≤ ctx.your_budget ∧
    ((respond_to_seller_offer ctx sp m rng).1 = DealStatus.ACCEPTED →
      sp ≤ ctx.your_budget) := by
  refine ⟨?_, ?_, ?_⟩
  · simp only [generate_opening_offer]
    omega
  · simp only [respond_to_seller_offer]
    split_ifs with h1 h2
    · exact h1.1
    · exact h2.1
    all_goals exact counter_offer_le_budget ctx
  · simp only [respond_to_seller_offer]
    split_ifs with h1 h2
    · exact fun _ => h1.1
    · exact fun _ => h2.1
    all_goals exact fun hco => nomatch hco

/-- Witness for C1 at a concrete context with budget 120000. -/
theorem budget_safety_witness :
    (generate_opening_offer (mkCtx 100000 120000 3 [90000, 72000] [50000, 60000] "B" false)
        ⟨0.7, 1⟩).1 ≤ 120000 ∧
    (respond_to_seller_offer (mkCtx 100000 120000 3 [90000, 72000] [50000, 60000] "B" false)
        95000 "" ⟨0.7, 1⟩).2.1 ≤ 120000 :=
  ⟨(budget_safety _ 95000 "" ⟨0.7, 1⟩ (by norm_num [mkCtx])).1,
   (budget_safety _ 95000 "" ⟨0.7, 1⟩ (by norm_num [mkCtx])).2.1⟩

/-- C2 counterexample: with market 100000, budget 100000, round 2, last
buyer offer 100000 (equal to the budget) and a seller ask of 150000, the
policy stays ONGOING at a counter of exactly 100000 — equal to the last
offer, not at least `last + 1000` as the claim requires. -/
theorem monotonic_offers_counterexample :
    (respond_to_seller_offer (mkCtx 100000 100000 2 [150000] [100000] "B" false)
        150000 "" ⟨0.7, 0⟩).1 = DealStatus.ONGOING ∧
    (respond_to_seller_offer (mkCtx 100000 100000 2 [150000] [100000] "B" false)
        150000 "" ⟨0.7, 0⟩).2.1 = 100000 ∧
    lastOffer (mkCtx 100000 100000 2 [150000] [100000] "B" false) = 100000 := by
  have hE : (estimate_min_price (mkCtx 100000 100000 2 [150000] [100000] "B" false)).1 =
      none := by
    simp [estimate_min_price, mkCtx, offerPairs, estimateLoop]
  have hlast : lastOffer (mkCtx 100000 100000 2 [150000] [100000] "B" false) = 100000 := by
    simp [lastOffer, mkCtx]
  have hco : counter_offer (mkCtx 100000 100000 2 [150000] [100000] "B" false) = 100000 := by
    simp only [counter_offer, hE, Option.map_none', hlast]
    norm_num [mkCtx]
  simp only [respond_to_seller_offer]
  rw [if_neg (fun h => absurd h.1 (by norm_num [mkCtx])),
    if_neg (fun h => absurd h.1 (by norm_num [mkCtx]))]
  exact ⟨rfl, hco, hlast⟩

/-- C2 (amended): when the last buyer offer is within budget and the
policy stays ONGOING at counter `c`, then `c >= last` and
`c >= min(last + fixed_step, budget)` with `fixed_step = 1000`; the
strict advance by the fixed step holds only until the budget clamp
binds (the counterexample at `last = budget` shows `c = last` there). -/
theorem monotonic_offers (ctx : NegotiationContext) (sp : ℤ) (m : String) (rng : RngDraw)
    (hlast : lastOffer ctx ≤ ctx.your_budget)
    (hst : (respond_to_seller_offer ctx sp m rng).1 = DealStatus.ONGOING) :
    lastOffer ctx ≤ (respond_to_seller_offer ctx sp m rng).2.1 ∧
    min (lastOffer ctx + 1000) ctx.your_budget ≤
      (respond_to_seller_offer ctx sp m rng).2.1 := by
  simp only [respond_to_seller_offer] at hst ⊢
  split_ifs at hst ⊢ with h1 h2
  all_goals first
    | exact DealStatus.noConfusion hst
    | simpa using counter_offer_lower ctx hlast

/-- Witness for C2 (amended) at a concrete context: last offer 62000,
budget 120000, seller ask 150000 in round 3 — the counter is at least
63000. -/
theorem monotonic_offers_witness :
    lastOffer (mkCtx 100000 120000 3 [150000, 140000] [55000, 62000] "B" false) ≤
      (respond_to_seller_offer (mkCtx 100000 120000 3 [150000, 140000] [55000, 62000] "B" false)
        140000 "" ⟨0.7, 0⟩).2.1 ∧
    min (lastOffer (mkCtx 100000 120000 3 [150000, 140000] [55000, 62000] "B" false) + 1000)
        120000 ≤
      (respond_to_seller_offer (mkCtx 100000 120000 3 [150000, 140000] [55000, 62000] "B" false)
        140000 "" ⟨0.7, 0⟩).2.1 :=
  monotonic_offers _ 140000 "" ⟨0.7, 0⟩
    (by norm_num [lastOffer, mkCtx])
    (by
      simp only [respond_to_seller_offer]
      rw [if_neg (fun h => absurd h.1 (by norm_num [mkCtx])),
        if_neg (fun h => absurd h.1 (by norm_num [mkCtx]))])

/-- C3: whenever the seller price is within budget and at most 0.87 of
the market price, the policy accepts at exactly that price. -/
theorem fast_accept (ctx : NegotiationContext) (sp : ℤ) (m : String) (rng : RngDraw)
    (h1 : sp ≤ ctx.your_budget)
    (h2 : (sp : ℚ) ≤ 0.87 * (ctx.product.base_market_price : ℚ)) :
    (respond_to_seller_offer ctx sp m rng).1 = DealStatus.ACCEPTED ∧
    (respond_to_seller_offer ctx sp m rng).2.1 = sp := by
  have h2' : sp ≤ pyInt (0.87 * (ctx.product.base_market_price : ℚ)) := le_pyInt_of_le h2
  simp only [respond_to_seller_offer]
  rw [if_pos ⟨h1, h2'⟩]
  exact ⟨rfl, rfl⟩

/-- Witness for C3 at the spec instance: market 100000, budget 120000, a
seller offer of 86000 on the first response call is accepted at 86000. -/
theorem fast_accept_witness :
    (respond_to_seller_offer (mkCtx 100000 120000 2 [150000] [62000] "B" false)
        86000 "" ⟨0.7, 0⟩).1 = DealStatus.ACCEPTED ∧
    (respond_to_seller_offer (mkCtx 100000 120000 2 [150000] [62000] "B" false)
        86000 "" ⟨0.7, 0⟩).2.1 = 86000 :=
  fast_accept _ 86000 "" ⟨0.7, 0⟩ (by norm_num [mkCtx]) (by norm_num [mkCtx])

/-- C7: the grade multiplier is 0.95 for Export grade or export-flagged
products, 0.92 for grade A, 0.88 otherwise; the dynamic ceiling is fully
grown to `min(budget, int(0.96 * market))` from round 9 on; and whenever
the fast-accept check does not fire while the seller price is within
budget, within the ceiling and at most 0.93 of market, the policy accepts
at exactly the seller price. -/
theorem dynamic_ceiling_accept :
    (∀ p : Product, (pyLower p.quality_grade = "export" ∨ p.export_grade = true) →
      grade_multiplier p = 0.95) ∧
    (∀ p : Product, ¬(pyLower p.quality_grade = "export" ∨ p.export_grade = true) →
      pyLower p.quality_grade = "a" → grade_multiplier p = 0.92) ∧
    (∀ p : Product, ¬(pyLower p.quality_grade = "export" ∨ p.export_grade = true) →
      pyLower p.quality_grade ≠ "a" → grade_multiplier p = 0.88) ∧
    (∀ ctx : NegotiationContext, 9 ≤ ctx.current_round → ceil_now ctx = late_cap ctx) ∧
    (∀ (ctx : NegotiationContext) (sp : ℤ) (m : String) (rng : RngDraw),
      ¬(sp ≤ ctx.your_budget ∧ sp ≤ pyInt (0.87 * (ctx.product.base_market_price : ℚ))) →
      sp ≤ ctx.your_budget → sp ≤ ceil_now ctx →
      (sp : ℚ) ≤ 0.93 * (ctx.product.base_market_price : ℚ) →
      (respond_to_seller_offer ctx sp m rng).1 = DealStatus.ACCEPTED ∧
      (respond_to_seller_offer ctx sp m rng).2.1 = sp) := by
  refine ⟨?_, ?_, ?_, ?_, ?_⟩
  · intro p h
    simp only [grade_multiplier]
    rw [if_pos h]
  · intro p h1 h2
    simp only [grade_multiplier]
    rw [if_neg h1, if_pos h2]
  · intro p h1 h2
    simp only [grade_multiplier]
    rw [if_neg h1, if_neg h2]
  · intro ctx h
    have h8 : (1 : ℚ) ≤ ((ctx.current_round : ℚ) - 1) / 8 := by
      rw [le_div_iff₀ (by norm_num : (0 : ℚ) < 8)]
      have h9 : (9 : ℚ) ≤ (ctx.current_round : ℚ) := by exact_mod_cast h
      linarith
    simp only [ceil_now, min_eq_left h8]
    have heq : ((calculate_fair_price ctx.product : ℤ) : ℚ) +
        (((late_cap ctx : ℤ) : ℚ) - ((calculate_fair_price ctx.product : ℤ) : ℚ)) * 1 =
        ((late_cap ctx : ℤ) : ℚ) := by ring
    rw [heq, pyInt_intCast]
  · intro ctx sp m rng hnot hb hceil h93
    have h93' : sp ≤ pyInt (0.93 * (ctx.product.base_market_price : ℚ)) := le_pyInt_of_le h93
    simp only [respond_to_seller_offer]
    rw [if_neg hnot, if_pos ⟨hb, hceil, h93'⟩]
    exact ⟨rfl, rfl⟩

/-- Witness for C7: an export-flagged product at market 100000, budget
120000, round 5 — the ceiling is 95500, so a seller price of 92000 (past
the fast-accept band but inside the ceiling and below 0.93 of market) is
accepted at 92000. -/
theorem dynamic_ceiling_accept_witness :
    (respond_to_seller_offer (mkCtx 100000 120000 5 [150000] [62000] "Export" true)
        92000 "" ⟨0.7, 0⟩).1 = DealStatus.ACCEPTED ∧
    (respond_to_seller_offer (mkCtx 100000 120000 5 [150000] [62000] "Export" true)
        92000 "" ⟨0.7, 0⟩).2.1 = 92000 :=
  dynamic_ceiling_accept.2.2.2.2 _ 92000 "" ⟨0.7, 0⟩
    (fun h => absurd h.2 (by norm_num [mkCtx, pyInt]))
    (by norm_num [mkCtx])
    (by norm_num [ceil_now, late_cap, calculate_fair_price, grade_multiplier, mkCtx, pyInt])
    (by norm_num [mkCtx])

/-- C8 counterexample: with budget 0 (violating the precondition
`budget >= 1`) and quality grade `"Z"` (outside the closed set
{A, B, Export}), the policy does not fail fast: it computes and returns
a price — ONGOING at a counter of 0. -/
theorem precondition_failfast_counterexample :
    (respond_to_seller_offer (mkCtx 100000 0 1 [] [] "Z" false) 150000 "" ⟨0.7, 0⟩).1 =
      DealStatus.ONGOING ∧
    (respond_to_seller_offer (mkCtx 100000 0 1 [] [] "Z" false) 150000 "" ⟨0.7, 0⟩).2.1 = 0 := by
  have hE : (estimate_min_price (mkCtx 100000 0 1 [] [] "Z" false)).1 = none := by
    simp [estimate_min_price, offerPairs, mkCtx, estimateLoop]
  have hlast : lastOffer (mkCtx 100000 0 1 [] [] "Z" false) = 0 := by
    simp [lastOffer, mkCtx]
  have hco : counter_offer (mkCtx 100000 0 1 [] [] "Z" false) = 0 := by
    simp only [counter_offer, hE, Option.map_none', hlast]
    norm_num [mkCtx]
  simp only [respond_to_seller_offer]
  rw [if_neg (fun h => absurd h.1 (by norm_num [mkCtx])),
    if_neg (fun h => absurd h.1 (by norm_num [mkCtx]))]
  exact ⟨rfl, hco⟩

/-- C8 (amended): the policy performs no precondition validation and never
fails: a quality grade outside the closed set {A, B, Export} (without the
export flag) is priced with the same default multiplier 0.88 as grade B,
and for any budget (including budget < 1) and any market price it still
returns a status — ACCEPTED or ONGOING — and a price clamped to the
budget, rather than raising a PreconditionViolation. -/
theorem precondition_failfast_amended :
    (∀ p : Product, pyLower p.quality_grade ≠ "export" → p.export_grade = false →
      pyLower p.quality_grade ≠ "a" → grade_multiplier p = 0.88) ∧
    (∀ (ctx : NegotiationContext) (sp : ℤ) (m : String) (rng : RngDraw),
      ((respond_to_seller_offer ctx sp m rng).1 = DealStatus.ACCEPTED ∨
        (respond_to_seller_offer ctx sp m rng).1 = DealStatus.ONGOING) ∧
      (respond_to_seller_offer ctx sp m rng).2.1 ≤ ctx.your_budget) := by
  constructor
  · intro p h1 h2 h3
    simp only [grade_multiplier]
    rw [if_neg (by simp [h1, h2]), if_neg h3]
  · intro ctx sp m rng
    constructor
    · simp only [respond_to_seller_offer]
      split_ifs <;> simp
    · simp only [respond_to_seller_offer]
      split_ifs with h1 h2
      · exact h1.1
      · exact h2.1
      all_goals exact counter_offer_le_budget ctx

/-- Witness for C8 (amended): the grade `"Z"` is priced at the 0.88
multiplier and, at budget 0, the returned price is clamped to 0. -/
theorem precondition_failfast_amended_witness :
    grade_multiplier (mkCtx 100000 0 1 [] [] "Z" false).product = 0.88 ∧
    (respond_to_seller_offer (mkCtx 100000 0 1 [] [] "Z" false) 150000 "" ⟨0.7, 0⟩).2.1 ≤ 0 :=
  ⟨precondition_failfast_amended.1 _ (by decide) (by decide) (by decide),
   (precondition_failfast_amended.2 _ 150000 "" ⟨0.7, 0⟩).2⟩

section ConcessionLemmas

/-- `pyIntR` of a nonnegative real is its floor. -/
lemma pyIntR_eq_floor {x : ℝ} (hx : 0 ≤ x) : pyIntR x = ⌊x⌋ := by
  simp [pyIntR, hx]

/-- Truncation toward zero moves a real by less than 1. -/
lemma abs_pyIntR_sub_lt (x : ℝ) : |((pyIntR x : ℤ) : ℝ) - x| < 1 := by
  unfold pyIntR
  split
  · have h1 := Int.floor_le x
    have h2 := Int.sub_one_lt_floor x
    rw [abs_lt]
    constructor <;> linarith
  · have h1 := Int.le_ceil x
    have h2 := Int.ceil_lt_add_one x
    rw [abs_lt]
    constructor <;> linarith

/-- Lower numeric bound for `exp 4`, from the digit bounds on `e`. -/
lemma exp_four_gt : (54.56 : ℝ) < Real.exp 4 := by
  have h4 : Real.exp 4 = Real.exp 1 ^ 4 := by
    rw [show (4 : ℝ) = ((4 : ℕ) : ℝ) * 1 by norm_num, Real.exp_nat_mul]
  have hl := Real.exp_one_gt_d9
  have hsq : (7.38905609 : ℝ) < Real.exp 1 ^ 2 := by nlinarith [hl]
  rw [h4, show Real.exp 1 ^ 4 = (Real.exp 1 ^ 2) ^ 2 by ring]
  nlinarith [hsq]

/-- Upper numeric bound for `exp 4`, from the digit bounds on `e`. -/
lemma exp_four_lt : Real.exp 4 < 54.67 := by
  have h4 : Real.exp 4 = Real.exp 1 ^ 4 := by
    rw [show (4 : ℝ) = ((4 : ℕ) : ℝ) * 1 by norm_num, Real.exp_nat_mul]
  have hl := Real.exp_one_gt_d9
  have hu := Real.exp_one_lt_d9
  have hsq : Real.exp 1 ^ 2 < 7.3890561 := by nlinarith [hl, hu]
  rw [h4, show Real.exp 1 ^ 4 = (Real.exp 1 ^ 2) ^ 2 by ring]
  nlinarith [hsq, hl]

/-- At round 1 the scheduler applies the logistic ease `1 / (1 + exp 4)`
to the anchor-to-target gap. -/
lemma concession_target_round_one (ctx : NegotiationContext) (target a : ℤ)
    (hr : ctx.current_round = 1) (ha : ctx.your_offers.head? = some a) :
    concession_target ctx target =
      pyIntR ((a : ℝ) + ((target : ℝ) - (a : ℝ)) * (1 / (1 + Real.exp 4))) := by
  cases hyo : ctx.your_offers with
  | nil => simp [hyo] at ha
  | cons b l =>
    have hb : b = a := by simpa [hyo] using ha
    subst hb
    simp only [concession_target, hyo, hr]
    norm_num

/-- At round 10 the scheduler applies the logistic ease `1 / (1 + exp (-4))`
to the anchor-to-target gap. -/
lemma concession_target_round_ten (ctx : NegotiationContext) (target a : ℤ)
    (hr : ctx.current_round = 10) (ha : ctx.your_offers.head? = some a) :
    concession_target ctx target =
      pyIntR ((a : ℝ) + ((target : ℝ) - (a : ℝ)) * (1 / (1 + Real.exp (-4)))) := by
  cases hyo : ctx.your_offers with
  | nil => simp [hyo] at ha
  | cons b l =>
    have hb : b = a := by simpa [hyo] using ha
    subst hb
    simp only [concession_target, hyo, hr]
    norm_num

/-- The round-10 ease is the complement of the round-1 ease. -/
lemma eased_ten_eq : 1 / (1 + Real.exp (-4)) = 1 - 1 / (1 + Real.exp 4) := by
  have hE := Real.exp_pos 4
  rw [Real.exp_neg]
  have h1 : (1 : ℝ) + Real.exp 4 ≠ 0 := by positivity
  have h2 : (1 : ℝ) + (Real.exp 4)⁻¹ ≠ 0 := by positivity
  field_simp
  ring

end ConcessionLemmas

/-- C6 counterexample: with anchor 65000 and target 90000, the scheduled
offer at round 1 is 65449 — not the anchor 65000 (nor within integer
rounding of it) — and at round 10 it is 89550, not the target 90000: the
logistic ease is `1/(1+e^4) ≈ 0.018` at `t = 0` and `≈ 0.982` at `t = 1`,
not exactly 0 and 1. -/
theorem concession_boundary_counterexample :
    concession_target (mkCtx 100000 120000 1 [150000] [65000] "B" false) 90000 = 65449 ∧
    concession_target (mkCtx 100000 120000 10 [150000] [65000] "B" false) 90000 = 89550 := by
  have hgt := exp_four_gt
  have hlt := exp_four_lt
  have hpos : (0 : ℝ) < 1 + Real.exp 4 := by positivity
  have hσ_lb : (449 : ℝ) < 25000 * (1 / (1 + Real.exp 4)) := by
    rw [mul_one_div, lt_div_iff₀ hpos]
    nlinarith [hlt]
  have hσ_ub : 25000 * (1 / (1 + Real.exp 4)) < 450 := by
    rw [mul_one_div, div_lt_iff₀ hpos]
    nlinarith [hgt]
  constructor
  · rw [concession_target_round_one _ 90000 65000 rfl (by simp [mkCtx])]
    have harg : ((65000 : ℤ) : ℝ) + (((90000 : ℤ) : ℝ) - ((65000 : ℤ) : ℝ)) *
        (1 / (1 + Real.exp 4)) = 65000 + 25000 * (1 / (1 + Real.exp 4)) := by
      push_cast
      ring
    rw [harg, pyIntR_eq_floor (by positivity)]
    rw [Int.floor_eq_iff]
    constructor
    · push_cast
      linarith [hσ_lb]
    · push_cast
      linarith [hσ_ub]
  · rw [concession_target_round_ten _ 90000 65000 rfl (by simp [mkCtx])]
    have harg : ((65000 : ℤ) : ℝ) + (((90000 : ℤ) : ℝ) - ((65000 : ℤ) : ℝ)) *
        (1 / (1 + Real.exp (-4))) =
        65000 + 25000 * (1 - 1 / (1 + Real.exp 4)) := by
      rw [eased_ten_eq]
      push_cast
      ring
    rw [harg, pyIntR_eq_floor (by nlinarith [hσ_ub])]
    rw [Int.floor_eq_iff]
    constructor
    · push_cast
      linarith [hσ_ub]
    · push_cast
      linarith [hσ_lb]

/-- C6 (amended): the concession curve is only approximately anchored —
at round 1 the scheduled offer is within 1.8% of the anchor-to-target gap
(plus one truncation unit) of the anchor, and at round 10 within the same
margin of the target; it does not in general equal them within integer
rounding, because the logistic ease is `1/(1+e^4) ≈ 0.018` at `t = 0` and
`1 - 1/(1+e^4) ≈ 0.982` at `t = 1`. -/
theorem concession_boundary_amended (ctx : NegotiationContext) (target a : ℤ)
    (ha : ctx.your_offers.head? = some a) :
    (ctx.current_round = 1 →
      |((concession_target ctx target : ℤ) : ℝ) - (a : ℝ)| ≤
        |(target : ℝ) - (a : ℝ)| * 0.018 + 1) ∧
    (ctx.current_round = 10 →
      |((concession_target ctx target : ℤ) : ℝ) - (target : ℝ)| ≤
        |(target : ℝ) - (a : ℝ)| * 0.018 + 1) := by
  have hgt := exp_four_gt
  have hpos : (0 : ℝ) < 1 + Real.exp 4 := by positivity
  have hσpos : (0 : ℝ) < 1 / (1 + Real.exp 4) := by positivity
  have hσlt : 1 / (1 + Real.exp 4) ≤ 0.018 := by
    rw [div_le_iff₀ hpos]
    nlinarith [hgt]
  have habs : (0 : ℝ) ≤ |(target : ℝ) - (a : ℝ)| := abs_nonneg _
  have hmul : |(target : ℝ) - (a : ℝ)| * (1 / (1 + Real.exp 4)) ≤
      |(target : ℝ) - (a : ℝ)| * 0.018 := by
    exact mul_le_mul_of_nonneg_left hσlt habs
  constructor
  · intro hr
    rw [concession_target_round_one ctx target a hr ha]
    set x := (a : ℝ) + ((target : ℝ) - (a : ℝ)) * (1 / (1 + Real.exp 4)) with hx
    have htri := abs_pyIntR_sub_lt x
    have hchain : |((pyIntR x : ℤ) : ℝ) - (a : ℝ)| ≤
        |((pyIntR x : ℤ) : ℝ) - x| + |x - (a : ℝ)| := abs_sub_le _ _ _
    have hxa : |x - (a : ℝ)| =
        |(target : ℝ) - (a : ℝ)| * (1 / (1 + Real.exp 4)) := by
      have hdiff : x - (a : ℝ) = ((target : ℝ) - (a : ℝ)) * (1 / (1 + Real.exp 4)) := by
        rw [hx]; ring
      rw [hdiff, abs_mul, abs_of_pos hσpos]
    linarith [hchain, htri, hmul, hxa.le, hxa.ge]
  · intro hr
    rw [concession_target_round_ten ctx target a hr ha]
    set x := (a : ℝ) + ((target : ℝ) - (a : ℝ)) * (1 / (1 + Real.exp (-4))) with hx
    have htri := abs_pyIntR_sub_lt x
    have hchain : |((pyIntR x : ℤ) : ℝ) - (target : ℝ)| ≤
        |((pyIntR x : ℤ) : ℝ) - x| + |x - (target : ℝ)| := abs_sub_le _ _ _
    have hxa : |x - (target : ℝ)| =
        |(target : ℝ) - (a : ℝ)| * (1 / (1 + Real.exp 4)) := by
      have hdiff : x - (target : ℝ) =
          -(((target : ℝ) - (a : ℝ)) * (1 / (1 + Real.exp 4))) := by
        rw [hx, eased_ten_eq]; ring
      rw [hdiff, abs_neg, abs_mul, abs_of_pos hσpos]
    linarith [hchain, htri, hmul, hxa.le, hxa.ge]

/-- Witness for C6 (amended) at anchor 65000, target 90000, round 1. -/
theorem concession_boundary_amended_witness :
    |((concession_target (mkCtx 100000 120000 1 [150000] [65000] "B" false) 90000 : ℤ) : ℝ) -
        ((65000 : ℤ) : ℝ)| ≤
      |((90000 : ℤ) : ℝ) - ((65000 : ℤ) : ℝ)| * 0.018 + 1 :=
  (concession_boundary_amended _ 90000 65000 (by simp [mkCtx])).1 rfl

end NegotiationAgent
